import Mathlib

/-!
Verification development for the notebook
`lectures/three_dimensional_image_processing.ipynb`.

The notebook is a linear script of calls into scikit-image / scipy / numpy.
We embed it shallowly at two levels:

1. A value-level model: 3D volumes are nested lists of rational intensities
   (`Volume ℚ`, planes of rows of columns), and every array-to-array operation
   of the notebook is a Lean function with the same index-level structure as
   the library routine it calls (pointwise maps, planewise loops filling an
   `empty_like` output, index-generated neighbourhood filters, bounded
   fixpoint iteration for connected components and watershed growth).
   Scalar quantities whose values are irrational in exact arithmetic
   (`x ** gamma`, Gaussian kernel weights, `sqrt` in the Sobel magnitude,
   bilateral weights, the Li / Otsu threshold scalars) are abstracted as
   parameters of the pipeline (`LibParams`); every structural fact proved
   below holds for all values of those parameters.

2. A trace-level model: the executed code cells are listed as a sequence of
   operations (`nbOps`) recording, for each library call of the notebook, its
   position, whether the notebook wraps it in a program-defined loop, the
   exception type of any `try/except` around it, and its filesystem reads and
   writes.  Ordering, error-handling and frame claims are settled on this
   trace.
-/

namespace Cells3D

/-! ## The data model: planes and volumes -/

/-- A 2D plane: a list of rows, each a list of pixel values. -/
abbrev Plane (α : Type) := List (List α)

/-- A 3D volume: a list of planes — the notebook's `(plane, row, column)`
convention. -/
abbrev Volume (α : Type) := List (Plane α)

/-- A plane has `r` rows of `c` columns each. -/
def PShape (pl : Plane α) (r c : ℕ) : Prop :=
  pl.length = r ∧ ∀ row ∈ pl, row.length = c

/-- A volume has `p` planes, each with `r` rows of `c` columns — the shape
invariant `(plane, row, column)` of the spec's data model. -/
def ShapeIs (v : Volume α) (p r c : ℕ) : Prop :=
  v.length = p ∧ ∀ pl ∈ v, PShape pl r c

instance (pl : Plane α) (r c : ℕ) : Decidable (PShape pl r c) := by
  unfold PShape; infer_instance

instance (v : Volume α) (p r c : ℕ) : Decidable (ShapeIs v p r c) := by
  unfold ShapeIs; infer_instance

/-- Number of rows of the first plane (numpy `a.shape[1]`, with 0 for an
empty array). -/
def rowsOf (v : Volume α) : ℕ := (v.getD 0 []).length

/-- Number of columns of the first row of the first plane
(numpy `a.shape[2]`). -/
def colsOf (v : Volume α) : ℕ := ((v.getD 0 []).getD 0 []).length

/-- Indexed read with a default, `v[i][j][k]`. -/
def getD3 (v : Volume α) (d : α) (i j k : ℕ) : α :=
  ((v.getD i []).getD j []).getD k d

/-- Indexed read at signed indices: out-of-range (negative) indices give the
default, modelling the padding of the border handling. -/
def getZ3 (v : Volume α) (d : α) (a b c : ℤ) : α :=
  if 0 ≤ a ∧ 0 ≤ b ∧ 0 ≤ c then getD3 v d a.toNat b.toNat c.toNat else d

/-- Indexed read in a plane with a default, `pl[i][j]`. -/
def getD2 (pl : Plane α) (d : α) (i j : ℕ) : α := (pl.getD i []).getD j d

/-- Signed indexed read in a plane. -/
def getZ2 (pl : Plane α) (d : α) (a b : ℤ) : α :=
  if 0 ≤ a ∧ 0 ≤ b then getD2 pl d a.toNat b.toNat else d

/-- Pointwise map over a volume — the shape every numpy elementwise
ufunc/broadcast expression in the notebook has. -/
def vmap (f : α → β) (v : Volume α) : Volume β :=
  v.map (fun pl => pl.map (fun row => row.map f))

/-- Generate a `p × r × c` volume from an index function — the shape of
`np.empty_like` followed by an index-by-index fill. -/
def volGen (p r c : ℕ) (g : ℕ → ℕ → ℕ → β) : Volume β :=
  (List.range p).map (fun i =>
    (List.range r).map (fun j =>
      (List.range c).map (fun k => g i j k)))

/-- Generate an output with the dimensions of `v` from an index function:
the common shape of all of the library's same-shape array transforms. -/
def volIdx (v : Volume α) (g : ℕ → ℕ → ℕ → β) : Volume β :=
  volGen v.length (rowsOf v) (colsOf v) g

/-- Generate an output with the dimensions of the plane `pl` from an index
function. -/
def planeIdx (pl : Plane α) (g : ℕ → ℕ → β) : Plane β :=
  (List.range pl.length).map (fun i =>
    (List.range (pl.getD 0 []).length).map (fun j => g i j))

/-- All voxel values of a volume, flattened. -/
def flatV (v : Volume α) : List α := (v.map (fun pl => pl.flatten)).flatten

/-- Number of voxels. -/
def voxCount (v : Volume α) : ℕ := (flatV v).length


/-! ## Models of the library primitives the notebook calls

Array-level structure (shapes, index dependence, loop structure, comparison
direction) is translated exactly; scalar functions whose exact values are
irrational (powers, Gaussian/bilateral weights, the Sobel magnitude
`sqrt(h² + v²)`, the Li/Otsu threshold scalars) are abstracted into
`LibParams`, so every theorem below holds for every value of them. -/

/-- Scalar parameters of the third-party numeric routines. `gpow γ x` models
`x ** γ`, `sobelMag h v` models `sqrt(h² + v²)`, `gaussW`/`gaussR` the
truncated Gaussian kernel, `bilatW` the bilateral weight of an offset given
the centre and neighbour values, and `liT`/`otsuT` the Li and Otsu threshold
scalars computed from a volume. -/
structure LibParams where
  gpow : ℚ → ℚ → ℚ
  sobelMag : ℚ → ℚ → ℚ
  gaussR : ℕ
  gaussW : ℤ → ℤ → ℤ → ℚ
  bilatW : ℤ → ℤ → ℚ → ℚ → ℚ
  liT : Volume ℚ → ℚ
  otsuT : Volume ℚ → ℚ

/-- The signed offsets `-n, …, n`. -/
def offsets (n : ℕ) : List ℤ :=
  (List.range (2 * n + 1)).map (fun (i : ℕ) => (i : ℤ) - (n : ℤ))

/-- The cubic offset neighbourhood `(2n+1)³` centred at the origin. -/
def box (n : ℕ) : List (ℤ × ℤ × ℤ) :=
  (offsets n).flatMap (fun a =>
    (offsets n).flatMap (fun b =>
      (offsets n).map (fun c => (a, b, c))))

/-- The square offset neighbourhood `(2n+1)²` centred at the origin. -/
def box2 (n : ℕ) : List (ℤ × ℤ) :=
  (offsets n).flatMap (fun a => (offsets n).map (fun b => (a, b)))

/-- 26-connectivity neighbours (`measure.label`'s default full connectivity
in 3D). -/
def nbrs26 : List (ℤ × ℤ × ℤ) := (box 1).filter (fun o => decide (o ≠ (0, 0, 0)))

/-- 6-connectivity neighbours (connectivity 1, the default of
`remove_small_holes` / `remove_small_objects` / `watershed`). -/
def nbrs6 : List (ℤ × ℤ × ℤ) :=
  [(1, 0, 0), (-1, 0, 0), (0, 1, 0), (0, -1, 0), (0, 0, 1), (0, 0, -1)]

/-- `morphology.ball(radius)` as an offset set: offsets within Euclidean
distance `radius` of the centre. -/
def ballOffsets (rad : ℕ) : List (ℤ × ℤ × ℤ) :=
  (box rad).filter (fun o => decide (o.1 ^ 2 + o.2.1 ^ 2 + o.2.2 ^ 2 ≤ (rad : ℤ) ^ 2))

/-- `exposure.adjust_gamma(v, gamma)`: the pointwise power law `O = I^γ`. -/
def adjust_gamma (P : LibParams) (γ : ℚ) (v : Volume ℚ) : Volume ℚ :=
  vmap (P.gpow γ) v

/-- Number of voxels with value at most `x`. -/
def countLE (v : Volume ℚ) (x : ℚ) : ℕ :=
  ((flatV v).filter (fun y => decide (y ≤ x))).length

/-- `exposure.equalize_hist(v)`: each voxel is mapped to the value of the
cumulative distribution of the volume's intensities at that voxel
(continuous-histogram model of the binned library routine). -/
def equalize_hist (v : Volume ℚ) : Volume ℚ :=
  volIdx v (fun i j k => (countLE v (getD3 v 0 i j k) : ℚ) / (voxCount v : ℚ))

/-- Ascending sort of rational values. -/
def sortQ (l : List ℚ) : List ℚ := l.mergeSort (fun a b => decide (a ≤ b))

/-- `scipy.stats.scoreatpercentile(v, per)` with linear interpolation between
order statistics. -/
def scoreatpercentile (v : Volume ℚ) (per : ℚ) : ℚ :=
  let s := sortQ (flatV v)
  if s.length = 0 then 0
  else
    let pos : ℚ := per * ((s.length : ℚ) - 1) / 100
    let f : ℕ := (⌊pos⌋).toNat
    let lo := s.getD f 0
    let hi := s.getD (f + 1) lo
    lo + (pos - (f : ℚ)) * (hi - lo)

/-- `exposure.rescale_intensity(v, in_range=(lo, hi), out_range=float32)`:
clip to `[lo, hi]` and scale linearly onto `[0, 1]`. -/
def rescale_intensity (lo hi : ℚ) (v : Volume ℚ) : Volume ℚ :=
  vmap (fun x => if hi ≤ lo then 0 else max 0 (min 1 ((x - lo) / (hi - lo)))) v

/-- Horizontal Sobel response at `(i, j)` (kernel
`[[1,2,1],[0,0,0],[-1,-2,-1]] / 4`, zero padding). -/
def sobelH (pl : Plane ℚ) (i j : ℕ) : ℚ :=
  (getZ2 pl 0 ((i : ℤ) - 1) ((j : ℤ) - 1) + 2 * getZ2 pl 0 ((i : ℤ) - 1) (j : ℤ)
      + getZ2 pl 0 ((i : ℤ) - 1) ((j : ℤ) + 1)
    - getZ2 pl 0 ((i : ℤ) + 1) ((j : ℤ) - 1) - 2 * getZ2 pl 0 ((i : ℤ) + 1) (j : ℤ)
      - getZ2 pl 0 ((i : ℤ) + 1) ((j : ℤ) + 1)) / 4

/-- Vertical Sobel response at `(i, j)`. -/
def sobelV (pl : Plane ℚ) (i j : ℕ) : ℚ :=
  (getZ2 pl 0 ((i : ℤ) - 1) ((j : ℤ) - 1) + 2 * getZ2 pl 0 (i : ℤ) ((j : ℤ) - 1)
      + getZ2 pl 0 ((i : ℤ) + 1) ((j : ℤ) - 1)
    - getZ2 pl 0 ((i : ℤ) - 1) ((j : ℤ) + 1) - 2 * getZ2 pl 0 (i : ℤ) ((j : ℤ) + 1)
      - getZ2 pl 0 ((i : ℤ) + 1) ((j : ℤ) + 1)) / 4

/-- `filters.sobel` on a single 2D plane: gradient magnitude of the two
Sobel responses. -/
def sobel2d (P : LibParams) (pl : Plane ℚ) : Plane ℚ :=
  planeIdx pl (fun i j => P.sobelMag (sobelH pl i j) (sobelV pl i j))

/-- `filters.gaussian(v, sigma)`: truncated convolution with the (abstract)
Gaussian kernel weights. -/
def gaussian3 (P : LibParams) (v : Volume ℚ) : Volume ℚ :=
  volIdx v (fun i j k =>
    (box P.gaussR).foldl
      (fun s o =>
        s + P.gaussW o.1 o.2.1 o.2.2 *
          getZ3 v 0 ((i : ℤ) + o.1) ((j : ℤ) + o.2.1) ((k : ℤ) + o.2.2))
      0)

/-- Median of a list of rationals: middle element of the ascending sort. -/
def medianQ (l : List ℚ) : ℚ := (sortQ l).getD (l.length / 2) 0

/-- `filters.median` on a single 2D plane: median over the 3×3 window
(zero padding). -/
def median2d (pl : Plane ℚ) : Plane ℚ :=
  planeIdx pl (fun i j =>
    medianQ ((box2 1).map (fun o => getZ2 pl 0 ((i : ℤ) + o.1) ((j : ℤ) + o.2))))

/-- `util.img_as_ubyte` on a pixel of a `[0, 1]` float image: scale by 255 and
round to the nearest integer, clipped to `[0, 255]`. -/
def ubytePx (x : ℚ) : ℚ := ((max 0 (min 255 ⌊x * 255 + 1 / 2⌋) : ℤ) : ℚ)

/-- `util.img_as_ubyte` on a volume. -/
def img_as_ubyte (v : Volume ℚ) : Volume ℚ := vmap ubytePx v

/-- `util.img_as_float` on a uint8 volume: divide by 255. -/
def img_as_float (v : Volume ℚ) : Volume ℚ := vmap (fun x => x / 255) v

/-- `restoration.denoise_bilateral` on a single 2D plane: a weighted average
over the window (radius 3 at the default `sigma_spatial`), the weights given
by the abstract spatial/radiometric weight function. -/
def bilateral2d (P : LibParams) (pl : Plane ℚ) : Plane ℚ :=
  planeIdx pl (fun i j =>
    let cv := getD2 pl 0 i j
    let wv := (box2 3).map (fun o =>
      let nv := getZ2 pl 0 ((i : ℤ) + o.1) ((j : ℤ) + o.2)
      (P.bilatW o.1 o.2 cv nv, nv))
    (wv.foldl (fun s q => s + q.1 * q.2) 0) / (wv.foldl (fun s q => s + q.1) 0))

/-- Thresholding as written in the notebook: `volume >= t`, a pointwise
comparison producing a boolean volume. The comparison is `>=`: a voxel equal
to the threshold is foreground. -/
def thresholdGE (t : ℚ) (v : Volume ℚ) : Volume Bool :=
  vmap (fun x => decide (t ≤ x)) v

/-- `morphology.dilation(v, selem)`: maximum over the structuring element
(out-of-range neighbours are ignored by padding with the centre value). -/
def gray_dilation (se : List (ℤ × ℤ × ℤ)) (v : Volume ℚ) : Volume ℚ :=
  volIdx v (fun i j k =>
    (se.map (fun o =>
      getZ3 v (getD3 v 0 i j k) ((i : ℤ) + o.1) ((j : ℤ) + o.2.1) ((k : ℤ) + o.2.2))).foldl
      max (getD3 v 0 i j k))

/-- `morphology.erosion(v, selem)`: minimum over the structuring element. -/
def gray_erosion (se : List (ℤ × ℤ × ℤ)) (v : Volume ℚ) : Volume ℚ :=
  volIdx v (fun i j k =>
    (se.map (fun o =>
      getZ3 v (getD3 v 0 i j k) ((i : ℤ) + o.1) ((j : ℤ) + o.2.1) ((k : ℤ) + o.2.2))).foldl
      min (getD3 v 0 i j k))

/-- `morphology.closing = erosion ∘ dilation`. -/
def gray_closing (se : List (ℤ × ℤ × ℤ)) (v : Volume ℚ) : Volume ℚ :=
  gray_erosion se (gray_dilation se v)

/-- `morphology.opening = dilation ∘ erosion`. -/
def gray_opening (se : List (ℤ × ℤ × ℤ)) (v : Volume ℚ) : Volume ℚ :=
  gray_dilation se (gray_erosion se v)

/-- `morphology.binary_dilation(v, selem)`: any structuring-element neighbour
is set (outside the image counts as background). -/
def binary_dilation (se : List (ℤ × ℤ × ℤ)) (v : Volume Bool) : Volume Bool :=
  volIdx v (fun i j k =>
    se.any (fun o => getZ3 v false ((i : ℤ) + o.1) ((j : ℤ) + o.2.1) ((k : ℤ) + o.2.2)))

/-- `morphology.binary_erosion(v, selem)`: all structuring-element neighbours
set (outside the image counts as foreground, the library's border value). -/
def binary_erosion (se : List (ℤ × ℤ × ℤ)) (v : Volume Bool) : Volume Bool :=
  volIdx v (fun i j k =>
    se.all (fun o => getZ3 v true ((i : ℤ) + o.1) ((j : ℤ) + o.2.1) ((k : ℤ) + o.2.2)))

/-- `morphology.binary_closing = binary_erosion ∘ binary_dilation`. -/
def binary_closing (se : List (ℤ × ℤ × ℤ)) (v : Volume Bool) : Volume Bool :=
  binary_erosion se (binary_dilation se v)

/-- `morphology.binary_opening = binary_dilation ∘ binary_erosion`. -/
def binary_opening (se : List (ℤ × ℤ × ℤ)) (v : Volume Bool) : Volume Bool :=
  binary_dilation se (binary_erosion se v)

/-! ### Connected components, distance transform, peaks and watershed

`measure.label` is modelled by propagating, over the foreground voxels, the
minimum flattened index of each connected component (`voxCount` rounds of
neighbour-min propagation reach a fixpoint, since a shortest path inside a
component is shorter than the voxel count), then renumbering components
`1, 2, …` in raster order of their representative — the library's
first-encounter scan order. -/

/-- Raster (C-order) flat index of `(i, j, k)` in an `_ × r × c` volume. -/
def flatIdx (r c i j k : ℕ) : ℕ := (i * r + j) * c + k

/-- Initial representative volume: foreground voxel ↦ its flat index + 1,
background ↦ 0. -/
def initRep (v : Volume Bool) : Volume ℕ :=
  volIdx v (fun i j k =>
    if getD3 v false i j k then flatIdx (rowsOf v) (colsOf v) i j k + 1 else 0)

/-- One round of neighbour-min propagation of component representatives. -/
def repStep (nb : List (ℤ × ℤ × ℤ)) (v : Volume Bool) (st : Volume ℕ) : Volume ℕ :=
  volIdx st (fun i j k =>
    if getD3 v false i j k then
      (nb.filterMap (fun o =>
        let a := (i : ℤ) + o.1
        let b := (j : ℤ) + o.2.1
        let c := (k : ℤ) + o.2.2
        if getZ3 v false a b c then some (getZ3 st 0 a b c) else none)).foldl
        min (getD3 st 0 i j k)
    else 0)

/-- Component representative of every voxel (0 on background). -/
def compRep (nb : List (ℤ × ℤ × ℤ)) (v : Volume Bool) : Volume ℕ :=
  (repStep nb v)^[voxCount v] (initRep v)

/-- The distinct component representatives, ascending (= raster order of the
first voxel of each component). -/
def repsSorted (nb : List (ℤ × ℤ × ℤ)) (v : Volume Bool) : List ℕ :=
  (((flatV (compRep nb v)).filter (fun x => decide (0 < x))).dedup).mergeSort
    (fun a b => decide (a ≤ b))

/-- `measure.label(v)`: connected components numbered `1, 2, …` in scan
order, 0 on background. -/
def labelCC (nb : List (ℤ × ℤ × ℤ)) (v : Volume Bool) : Volume ℕ :=
  volIdx v (fun i j k =>
    if getD3 v false i j k then
      (repsSorted nb v).findIdx (fun x => x == getD3 (compRep nb v) 0 i j k) + 1
    else 0)

/-- Size (in voxels) of the component of voxel `(i, j, k)`. -/
def compSize (nb : List (ℤ × ℤ × ℤ)) (v : Volume Bool) (i j k : ℕ) : ℕ :=
  (flatV (compRep nb v)).count (getD3 (compRep nb v) 0 i j k)

/-- `morphology.remove_small_objects(v, min_size)`: keep a foreground voxel
iff its connected component has at least `min_size` voxels. -/
def remove_small_objects (nb : List (ℤ × ℤ × ℤ)) (minSize : ℕ) (v : Volume Bool) :
    Volume Bool :=
  volIdx v (fun i j k =>
    getD3 v false i j k && decide (minSize ≤ compSize nb v i j k))

/-- `morphology.remove_small_holes(v, min_size)`: fill background components
smaller than `min_size` — the complement of removing small objects from the
complement. -/
def remove_small_holes (nb : List (ℤ × ℤ × ℤ)) (minSize : ℕ) (v : Volume Bool) :
    Volume Bool :=
  vmap (fun b => !b) (remove_small_objects nb minSize (vmap (fun b => !b) v))

/-- All index triples of a volume. -/
def allIdx (v : Volume α) : List (ℕ × ℕ × ℕ) :=
  (List.range v.length).flatMap (fun i =>
    (List.range (rowsOf v)).flatMap (fun j =>
      (List.range (colsOf v)).map (fun k => (i, j, k))))

/-- Squared Euclidean distance between two index triples. -/
def sqDist (a b : ℕ × ℕ × ℕ) : ℚ :=
  ((a.1 : ℚ) - (b.1 : ℚ)) ^ 2 + ((a.2.1 : ℚ) - (b.2.1 : ℚ)) ^ 2
    + ((a.2.2 : ℚ) - (b.2.2 : ℚ)) ^ 2

/-- `ndi.distance_transform_edt(v)`, squared: squared distance from each
foreground voxel to the nearest background voxel (the squaring is a monotone
change of scale keeping the computation rational; 0 on background). -/
def distance_transform_edt_sq (v : Volume Bool) : Volume ℚ :=
  volIdx v (fun i j k =>
    if getD3 v false i j k then
      (((allIdx v).filter (fun t => !(getD3 v false t.1 t.2.1 t.2.2))).map
        (sqDist (i, j, k))).foldl min
        ((((v.length + rowsOf v + colsOf v) ^ 2 : ℕ) : ℚ))
    else 0)

/-- `feature.peak_local_max(img, footprint=np.ones((2r+1,)*3), indices=False,
labels=labs)`: a voxel of a labelled region is a peak iff no voxel of the
same region inside the footprint window has a strictly larger value. -/
def peak_local_max (rad : ℕ) (img : Volume ℚ) (labs : Volume ℕ) : Volume Bool :=
  volIdx img (fun i j k =>
    let L := getD3 labs 0 i j k
    if L = 0 then false
    else
      (box rad).all (fun o =>
        let a := (i : ℤ) + o.1
        let b := (j : ℤ) + o.2.1
        let c := (k : ℤ) + o.2.2
        !(getZ3 labs 0 a b c == L) || decide (getZ3 img 0 a b c ≤ getD3 img 0 i j k)))

/-- One round of watershed region growth: an unlabelled voxel inside the mask
takes the label of the labelled in-mask neighbour of least image value. -/
def wsStep (nb : List (ℤ × ℤ × ℤ)) (img : Volume ℚ) (mask : Volume Bool)
    (st : Volume ℕ) : Volume ℕ :=
  volIdx st (fun i j k =>
    let cur := getD3 st 0 i j k
    if cur ≠ 0 then cur
    else if !(getD3 mask false i j k) then 0
    else
      let cands := nb.filterMap (fun o =>
        let a := (i : ℤ) + o.1
        let b := (j : ℤ) + o.2.1
        let c := (k : ℤ) + o.2.2
        let lab := getZ3 st 0 a b c
        if !(lab == 0) && getZ3 mask false a b c then some (getZ3 img 0 a b c, lab)
        else none)
      match cands.foldl
        (fun acc q =>
          match acc with
          | none => some q
          | some a => if q.1 < a.1 then some q else acc)
        none with
      | none => 0
      | some q => q.2)

/-- `morphology.watershed(img, markers, mask=mask)`: region growing of the
marker labels over the mask, flooding lower image values first (bounded
fixpoint model of the library's priority flood). -/
def watershed (nb : List (ℤ × ℤ × ℤ)) (img : Volume ℚ) (markers : Volume ℕ)
    (mask : Volume Bool) : Volume ℕ :=
  (wsStep nb img mask)^[voxCount markers] markers

/-! ## The notebook's pipeline variables

Each definition is the straight transcription of one assignment of the
executed notebook, as a function of the loaded volume `data` and the abstract
scalar parameters `P`. -/

/-- `gamma_low = exposure.adjust_gamma(data, gamma=0.5)`. -/
def gamma_low (P : LibParams) (data : Volume ℚ) : Volume ℚ :=
  adjust_gamma P (1 / 2) data

/-- `gamma_high = exposure.adjust_gamma(data, gamma=1.5)`. -/
def gamma_high (P : LibParams) (data : Volume ℚ) : Volume ℚ :=
  adjust_gamma P (3 / 2) data

/-- `equalized = exposure.equalize_hist(data)`. -/
def equalized (data : Volume ℚ) : Volume ℚ := equalize_hist data

/-- `vmin, vmax = stats.scoreatpercentile(data, (0.5, 99.5))` — the 0.5th
percentile. -/
def vminPct (data : Volume ℚ) : ℚ := scoreatpercentile data (1 / 2)

/-- The 99.5th percentile. -/
def vmaxPct (data : Volume ℚ) : ℚ := scoreatpercentile data (199 / 2)

/-- `clipped = exposure.rescale_intensity(data, in_range=(vmin, vmax),
out_range=np.float32)`. -/
def clipped (data : Volume ℚ) : Volume ℚ :=
  rescale_intensity (vminPct data) (vmaxPct data) data

/-- `rescaled = clipped`. -/
def rescaled (data : Volume ℚ) : Volume ℚ := clipped data

/-- The planewise Sobel loop:
`sobel = np.empty_like(rescaled); for plane, image in enumerate(rescaled):
sobel[plane] = filters.sobel(image)` — a program-defined loop over planes,
each iteration one 2D library call. -/
def sobelVol (P : LibParams) (data : Volume ℚ) : Volume ℚ :=
  (rescaled data).map (sobel2d P)

/-- `gaussian = filters.gaussian(rescaled, multichannel=False, sigma=sigma)`:
a single 3D library call. -/
def gaussianVol (P : LibParams) (data : Volume ℚ) : Volume ℚ :=
  gaussian3 P (rescaled data)

/-- `rescaled_uint8 = util.img_as_ubyte(rescaled)`. -/
def rescaled_uint8 (data : Volume ℚ) : Volume ℚ := img_as_ubyte (rescaled data)

/-- The planewise median loop followed by `util.img_as_float`. -/
def medianVol (data : Volume ℚ) : Volume ℚ :=
  img_as_float ((rescaled_uint8 data).map median2d)

/-- The planewise bilateral loop:
`for index, plane in enumerate(rescaled): bilateral[index] =
restoration.denoise_bilateral(plane, multichannel=False)`. -/
def bilateralVol (P : LibParams) (data : Volume ℚ) : Volume ℚ :=
  (rescaled data).map (bilateral2d P)

/-- `denoised = bilateral`. -/
def denoised (P : LibParams) (data : Volume ℚ) : Volume ℚ := bilateralVol P data

/-- `li = denoised >= filters.threshold_li(denoised)`. -/
def liVol (P : LibParams) (data : Volume ℚ) : Volume Bool :=
  thresholdGE (P.liT (denoised P data)) (denoised P data)

/-- `otsu = denoised >= filters.threshold_otsu(denoised)`. -/
def otsuVol (P : LibParams) (data : Volume ℚ) : Volume Bool :=
  thresholdGE (P.otsuT (denoised P data)) (denoised P data)

/-- `binary = li`. -/
def binaryVol (P : LibParams) (data : Volume ℚ) : Volume Bool := liVol P data

/-- `closing = morphology.closing(rescaled, selem=morphology.ball(3))`. -/
def closingVol (data : Volume ℚ) : Volume ℚ := gray_closing (ballOffsets 3) (rescaled data)

/-- `dilation = morphology.dilation(rescaled, selem=morphology.ball(3))`. -/
def dilationVol (data : Volume ℚ) : Volume ℚ := gray_dilation (ballOffsets 3) (rescaled data)

/-- `erosion = morphology.erosion(rescaled, selem=morphology.ball(3))`. -/
def erosionVol (data : Volume ℚ) : Volume ℚ := gray_erosion (ballOffsets 3) (rescaled data)

/-- `opening = morphology.opening(rescaled, selem=morphology.ball(3))`. -/
def openingVol (data : Volume ℚ) : Volume ℚ := gray_opening (ballOffsets 3) (rescaled data)

/-- `binary_closing = morphology.binary_closing(binary, selem=ball(3))`. -/
def binaryClosingVol (P : LibParams) (data : Volume ℚ) : Volume Bool :=
  binary_closing (ballOffsets 3) (binaryVol P data)

/-- `binary_dilation = morphology.binary_dilation(binary, selem=ball(3))`. -/
def binaryDilationVol (P : LibParams) (data : Volume ℚ) : Volume Bool :=
  binary_dilation (ballOffsets 3) (binaryVol P data)

/-- `binary_erosion = morphology.binary_erosion(binary, selem=ball(3))`. -/
def binaryErosionVol (P : LibParams) (data : Volume ℚ) : Volume Bool :=
  binary_erosion (ballOffsets 3) (binaryVol P data)

/-- `binary_opening = morphology.binary_opening(binary, selem=ball(3))`. -/
def binaryOpeningVol (P : LibParams) (data : Volume ℚ) : Volume Bool :=
  binary_opening (ballOffsets 3) (binaryVol P data)

/-- `binary_equalized = equalized >= filters.threshold_li(equalized)`. -/
def binary_equalized (P : LibParams) (data : Volume ℚ) : Volume Bool :=
  thresholdGE (P.liT (equalized data)) (equalized data)

/-- `despeckled1 = morphology.closing(morphology.opening(binary_equalized,
selem=ball(1)), selem=ball(1))` (on a boolean volume the grayscale
closing/opening act as the binary ones). -/
def despeckled1 (P : LibParams) (data : Volume ℚ) : Volume Bool :=
  binary_closing (ballOffsets 1) (binary_opening (ballOffsets 1) (binary_equalized P data))

/-- `despeckled3`: the same with `ball(3)`. -/
def despeckled3 (P : LibParams) (data : Volume ℚ) : Volume Bool :=
  binary_closing (ballOffsets 3) (binary_opening (ballOffsets 3) (binary_equalized P data))

/-- `remove_holes = morphology.remove_small_holes(binary, min_size=20**3)`. -/
def removeHolesVol (P : LibParams) (data : Volume ℚ) : Volume Bool :=
  remove_small_holes nbrs6 (20 ^ 3) (binaryVol P data)

/-- `remove_objects = morphology.remove_small_objects(remove_holes,
min_size=20**3)`. -/
def removeObjectsVol (P : LibParams) (data : Volume ℚ) : Volume Bool :=
  remove_small_objects nbrs6 (20 ^ 3) (removeHolesVol P data)

/-- `labels = measure.label(remove_objects)` (the connected-component
labelling cell). -/
def labelsCC (P : LibParams) (data : Volume ℚ) : Volume ℕ :=
  labelCC nbrs26 (removeObjectsVol P data)

/-- `distance = ndi.distance_transform_edt(remove_objects)` (squared-distance
model). -/
def distanceVol (P : LibParams) (data : Volume ℚ) : Volume ℚ :=
  distance_transform_edt_sq (removeObjectsVol P data)

/-- `peak_local_max = feature.peak_local_max(distance,
footprint=np.ones((15, 15, 15)), indices=False,
labels=measure.label(remove_objects))` — a 15×15×15 footprint is radius 7. -/
def peaksVol (P : LibParams) (data : Volume ℚ) : Volume Bool :=
  peak_local_max 7 (distanceVol P data) (labelCC nbrs26 (removeObjectsVol P data))

/-- `markers = measure.label(peak_local_max)`. -/
def markersVol (P : LibParams) (data : Volume ℚ) : Volume ℕ :=
  labelCC nbrs26 (peaksVol P data)

/-- `labels = morphology.watershed(-rescaled, markers, mask=remove_objects)`. -/
def wsLabels (P : LibParams) (data : Volume ℚ) : Volume ℕ :=
  watershed nbrs6 (vmap (fun x => -x) (rescaled data)) (markersVol P data)
    (removeObjectsVol P data)

/-! ## The `display` helper -/

/-- Everything a rendered panel of `display` carries: the plane shown and the
shared display bounds `vmin`/`vmax`. -/
structure PanelView where
  image : Plane ℚ
  vmin : ℚ
  vmax : ℚ
deriving DecidableEq

/-- Fuelled model of Python's extended slice `l[::step]` (for `step > 0`):
the elements at indices `0, step, 2·step, …`. -/
def sliceStepAux (step : ℕ) : ℕ → List α → List α
  | _, [] => []
  | 0, _ :: _ => []
  | fuel + 1, x :: xs => x :: sliceStepAux step fuel (xs.drop (step - 1))

/-- `l[::step]` for `step > 0`. -/
def sliceStep (step : ℕ) (l : List α) : List α := sliceStepAux step l.length l

/-- `im3d.min()` (0 for an empty volume, matching no use in the notebook). -/
def volMin (v : Volume ℚ) : ℚ :=
  match flatV v with
  | [] => 0
  | x :: xs => xs.foldl min x

/-- `im3d.max()`. -/
def volMax (v : Volume ℚ) : ℚ :=
  match flatV v with
  | [] => 0
  | x :: xs => xs.foldl max x

/-- The `display` helper:
`_, axes = plt.subplots(nrows=5, ncols=6); vmin = im3d.min();
vmax = im3d.max(); for ax, image in zip(axes.flatten(), im3d[::step]):
ax.imshow(image, cmap=cmap, vmin=vmin, vmax=vmax)`.
The 5×6 grid of axes is the list `List.range (5 * 6)`; `zip` stops at the
shorter of the axes and the selected planes, which is what makes the loop
safe for every volume length. -/
def displayPanels (v : Volume ℚ) (step : ℕ) : List PanelView :=
  ((List.range (5 * 6)).zip (sliceStep step v)).map
    (fun ai => ⟨ai.2, volMin v, volMax v⟩)

/-- Ceiling division, the length of `l[::step]`. -/
def ceilDiv (n step : ℕ) : ℕ := (n + step - 1) / step

/-! ## The `io.imshow` cell and its `try/except`

`io.imshow` is third-party code; the notebook itself documents its contract:
"`skimage.io.imshow` can only display grayscale and RGB(A) 2D images", and
displaying the 3D volume raises a `TypeError`. The model below follows that
documented contract. -/

/-- The Python exception types caught anywhere in the notebook. -/
inductive PyExc
  | typeError
  | notImplementedErr
deriving DecidableEq

/-- A raised Python exception: its type and its message. -/
structure ExcVal where
  kind : PyExc
  msg : String
deriving DecidableEq

/-- The `TypeError` raised when a non-image array is displayed. -/
def imshowTypeError : ExcVal := ⟨PyExc.typeError, "Invalid dimensions for image data"⟩

/-- `io.imshow(a)`: succeeds on a 2D grayscale image or on an RGB(A) image
(3D with a final axis of 3 or 4 channels); on anything else — in particular
on a 3D grayscale volume — it raises the `TypeError`. -/
def imshow (ndim lastAxis : ℕ) : Except ExcVal Unit :=
  if ndim = 2 ∨ (ndim = 3 ∧ (lastAxis = 3 ∨ lastAxis = 4)) then Except.ok ()
  else Except.error imshowTypeError

/-- The notebook's state at the `try` cell: the loaded volume and the lines
printed so far. -/
structure NbState where
  data : Volume ℚ
  printed : List String
deriving DecidableEq

/-- The cell `try: io.imshow(data, cmap="gray") except TypeError as e:
print(str(e))`: run `imshow` on the 3D volume; a `TypeError` is caught and
its message printed, any other exception would propagate, and a normal
return changes nothing. -/
def imshowCell (st : NbState) : Except ExcVal NbState :=
  match imshow 3 (colsOf st.data) with
  | Except.ok _ => Except.ok st
  | Except.error e =>
    if e.kind = PyExc.typeError then Except.ok ⟨st.data, st.printed ++ [e.msg]⟩
    else Except.error e

/-- The microscope spacing `(0.2900000, 0.0650000, 0.0650000)` from the
notebook, as exact rationals. -/
def original_spacing : ℚ × ℚ × ℚ := (29/100, 13/200, 13/200)

/-- `rescaled_spacing = np.multiply((1.0, 4.0, 4.0), original_spacing)`. -/
def rescaled_spacing : ℚ × ℚ × ℚ :=
  (1 * original_spacing.1, 4 * original_spacing.2.1, 4 * original_spacing.2.2)

/-- `spacing = rescaled_spacing / rescaled_spacing[1]` (componentwise). -/
def spacing : ℚ × ℚ × ℚ :=
  (rescaled_spacing.1 / rescaled_spacing.2.1,
   rescaled_spacing.2.1 / rescaled_spacing.2.1,
   rescaled_spacing.2.2 / rescaled_spacing.2.1)

/-! ## The trace of the executed notebook

`nbOps` lists, cell by cell and in executed order, every operation of the
notebook: each library call, whether the notebook wraps it in a
program-defined loop (the planewise filter loops, the `display` helper's
loop over planes, the marker-plot figure's loop over its subplot axes, and
the loops over the measured region-properties objects), the exception type
of any `try/except` around it, and its filesystem reads and writes. Cells
that only define helper functions (`show_plane`, `display`, `plot_hist`,
`get_cmap`) execute nothing and contribute no operation; an invocation of
`display` executes its body's loop and is recorded as a loop. -/

/-- The stage of the pipeline an operation belongs to. -/
inductive StepKind
  | load
  | spacingCalc
  | displayTry
  | viz
  | contrast
  | edge
  | denoise
  | threshold
  | morpho
  | labeling
  | watershedSeg
  | measureFeat
deriving DecidableEq

/-- How the notebook invokes an operation: a single library call; a
program-defined loop over the planes of the volume (or over the subplot axes
showing them) with one 2D library call per iteration — the shape of the
sobel/median/bilateral filter loops, of the `display` helper's body and of
the cell plotting the markers over the distance planes; or a loop over the
measured region-properties objects (the property probe and the per-object
comprehensions). -/
inductive CallShape
  | single
  | planewiseLoop
  | propLoop
deriving DecidableEq

/-- One operation of the executed notebook. -/
structure NbOp where
  name : String
  kind : StepKind
  shape : CallShape
  handler : Option PyExc
  reads : List String
  writes : List String
deriving DecidableEq

/-- A plain single library call with no handler and no filesystem effect. -/
def call (n : String) (k : StepKind) : NbOp := ⟨n, k, CallShape.single, none, [], []⟩

/-- A program-defined loop over planes (or the subplot axes showing them),
each iteration one 2D library call. -/
def loopOp (n : String) (k : StepKind) : NbOp := ⟨n, k, CallShape.planewiseLoop, none, [], []⟩

/-- A program-defined loop over the measured region-properties objects. -/
def propLoopOp (n : String) : NbOp :=
  ⟨n, StepKind.measureFeat, CallShape.propLoop, none, [], []⟩

/-- The operations of the executed notebook, in order. -/
def nbOps : List NbOp := [
  ⟨"io.imread", StepKind.load, CallShape.single, none, ["../images/cells.tif"], []⟩,
  call "spacing normalization" StepKind.spacingCalc,
  ⟨"io.imshow", StepKind.displayTry, CallShape.single, some PyExc.typeError, [], []⟩,
  call "show_plane three views" StepKind.viz,
  loopOp "display(data)" StepKind.viz,
  call "exposure.adjust_gamma gamma=0.5" StepKind.contrast,
  call "exposure.adjust_gamma gamma=1.5" StepKind.contrast,
  call "gamma comparison figure" StepKind.viz,
  call "exposure.equalize_hist" StepKind.contrast,
  loopOp "display(equalized)" StepKind.viz,
  call "histogram and cdf figure" StepKind.viz,
  call "stats.scoreatpercentile" StepKind.contrast,
  call "exposure.rescale_intensity" StepKind.contrast,
  loopOp "display(clipped)" StepKind.viz,
  loopOp "filters.sobel planewise" StepKind.edge,
  loopOp "display(sobel)" StepKind.viz,
  call "filters.sobel row slice" StepKind.edge,
  call "filters.sobel column slice" StepKind.edge,
  call "sobel comparison figure" StepKind.viz,
  call "filters.gaussian" StepKind.denoise,
  loopOp "display(gaussian)" StepKind.viz,
  call "util.img_as_ubyte" StepKind.denoise,
  loopOp "filters.median planewise" StepKind.denoise,
  call "util.img_as_float" StepKind.denoise,
  loopOp "display(median)" StepKind.viz,
  loopOp "restoration.denoise_bilateral planewise" StepKind.denoise,
  loopOp "display(bilateral)" StepKind.viz,
  call "filter comparison figure" StepKind.viz,
  call "filters.threshold_li" StepKind.threshold,
  call "comparison denoised >= threshold_li" StepKind.threshold,
  call "filters.threshold_otsu" StepKind.threshold,
  call "comparison denoised >= threshold_otsu" StepKind.threshold,
  call "threshold figure" StepKind.viz,
  loopOp "display(binary)" StepKind.viz,
  call "morphology.ball radius=5" StepKind.morpho,
  call "morphology.cube width=5" StepKind.morpho,
  call "morphology.closing" StepKind.morpho,
  call "morphology.dilation" StepKind.morpho,
  call "morphology.erosion" StepKind.morpho,
  call "morphology.opening" StepKind.morpho,
  call "morphology.binary_closing" StepKind.morpho,
  call "morphology.binary_dilation" StepKind.morpho,
  call "morphology.binary_erosion" StepKind.morpho,
  call "morphology.binary_opening" StepKind.morpho,
  call "morphology grid figure" StepKind.viz,
  call "filters.threshold_li on equalized" StepKind.threshold,
  call "comparison equalized >= threshold_li" StepKind.threshold,
  call "morphology.opening ball=1" StepKind.morpho,
  call "morphology.closing ball=1" StepKind.morpho,
  call "morphology.opening ball=3" StepKind.morpho,
  call "morphology.closing ball=3" StepKind.morpho,
  call "despeckle figure" StepKind.viz,
  call "morphology.remove_small_holes" StepKind.morpho,
  loopOp "display(remove_holes)" StepKind.viz,
  call "morphology.remove_small_objects" StepKind.morpho,
  loopOp "display(remove_objects)" StepKind.viz,
  call "measure.label" StepKind.labeling,
  loopOp "display(masked_labels)" StepKind.viz,
  call "label views figure" StepKind.viz,
  call "ndi.distance_transform_edt" StepKind.watershedSeg,
  call "feature.peak_local_max" StepKind.watershedSeg,
  call "measure.label markers" StepKind.watershedSeg,
  call "morphology.watershed" StepKind.watershedSeg,
  loopOp "display(watershed labels)" StepKind.viz,
  call "declumped labels figure" StepKind.viz,
  call "oversegmentation figure" StepKind.viz,
  loopOp "markers over distance figure" StepKind.viz,
  call "pinch points figure" StepKind.viz,
  call "segmentation.clear_border" StepKind.measureFeat,
  loopOp "display(interior_labels)" StepKind.viz,
  call "segmentation.relabel_sequential" StepKind.measureFeat,
  call "measure.regionprops" StepKind.measureFeat,
  ⟨"regionprops property probe", StepKind.measureFeat, CallShape.propLoop,
    some PyExc.notImplementedErr, [], []⟩,
  propLoopOp "regionprop labels list",
  propLoopOp "regionprop areas list",
  call "volume statistics" StepKind.measureFeat,
  call "measure.marching_cubes pixel spacing" StepKind.measureFeat,
  call "measure.mesh_surface_area pixel" StepKind.measureFeat,
  call "measure.marching_cubes actual spacing" StepKind.measureFeat,
  call "measure.mesh_surface_area actual" StepKind.measureFeat,
  call "Poly3DCollection mesh figure" StepKind.viz]

/-- Index of the first operation of a given stage. -/
def firstIdx (k : StepKind) : ℕ := nbOps.findIdx (fun o => o.kind == k)

/-- The indexed operations, for order comparisons. -/
def nbOpsIdx : List (ℕ × NbOp) := nbOps.enum

/-- The outcome the spec describes for the `try` cell: the `TypeError` is
caught, its message printed, execution returns normally, and the volume (and
everything else in the state) is unchanged. -/
def ImshowCaught (st : NbState) : Prop :=
  imshowCell st = Except.ok ⟨st.data, st.printed ++ [imshowTypeError.msg]⟩

/-- The shape invariant claimed for every volume-to-volume step of the
pipeline: gamma adjustment, equalization, intensity rescaling,
gaussian/median/bilateral filtering, thresholding, morphological cleanup,
connected-component labelling and watershed all produce a volume of the
same `(plane, row, column)` shape as the loaded volume. -/
def PipelineShapes (P : LibParams) (data : Volume ℚ) (p r c : ℕ) : Prop :=
  ShapeIs (gamma_low P data) p r c
  ∧ ShapeIs (gamma_high P data) p r c
  ∧ ShapeIs (equalized data) p r c
  ∧ ShapeIs (rescaled data) p r c
  ∧ ShapeIs (sobelVol P data) p r c
  ∧ ShapeIs (gaussianVol P data) p r c
  ∧ ShapeIs (medianVol data) p r c
  ∧ ShapeIs (bilateralVol P data) p r c
  ∧ ShapeIs (liVol P data) p r c
  ∧ ShapeIs (otsuVol P data) p r c
  ∧ ShapeIs (despeckled1 P data) p r c
  ∧ ShapeIs (removeHolesVol P data) p r c
  ∧ ShapeIs (removeObjectsVol P data) p r c
  ∧ ShapeIs (labelsCC P data) p r c
  ∧ ShapeIs (wsLabels P data) p r c

/-- A concrete instantiation of the abstract scalar parameters, used to
evaluate the pipeline on concrete inputs. -/
def P0 : LibParams :=
  ⟨fun _ x => x, fun h v => h + v, 1, fun _ _ _ => 1, fun _ _ _ _ => 1,
   fun _ => 0, fun _ => 0⟩

/-- What the `display` helper guarantees: it renders exactly
`min 30 ⌈planes/step⌉` panels (the `zip` stops at the shorter of the 5×6
axes grid and the selected planes, so the loop never indexes out of bounds);
at the default `step = 2`, a volume with more than 60 planes is silently
truncated to 30 panels while one with at most 60 planes has all of its
selected planes shown; and every panel shares the volume's global minimum
and maximum as its display bounds. -/
def DisplaySpec (v : Volume ℚ) (step : ℕ) : Prop :=
  (displayPanels v step).length = min 30 (ceilDiv v.length step)
  ∧ (60 < v.length →
      (displayPanels v 2).length = 30 ∧ (displayPanels v 2).length < ceilDiv v.length 2)
  ∧ (v.length ≤ 60 → (displayPanels v 2).length = ceilDiv v.length 2)
  ∧ ∀ pn ∈ displayPanels v step, pn.vmin = volMin v ∧ pn.vmax = volMax v

/-- Each of the notebook's three binarizations is, definitionally, the
pointwise `>=` comparison against the corresponding library threshold
scalar. -/
def ThresholdSitesGE : Prop :=
  ∀ (P : LibParams) (data : Volume ℚ),
    liVol P data = thresholdGE (P.liT (denoised P data)) (denoised P data) ∧
    otsuVol P data = thresholdGE (P.otsuT (denoised P data)) (denoised P data) ∧
    binary_equalized P data = thresholdGE (P.liT (equalized data)) (equalized data)

end Cells3D

namespace Cells3D

/-- C7: the normalized per-axis spacing tuple equals the original spacing
`(0.29, 0.065, 0.065)` multiplied elementwise by `(1.0, 4.0, 4.0)` and then
divided by its row component; in exact rational arithmetic it is
`(29/26, 1, 1)`, so the row and column spacings are exactly `1`. -/
theorem C7_spacing_normalized :
    rescaled_spacing = (29/100, 13/50, 13/50) ∧
    spacing = (29/26, 1, 1) ∧ spacing.2.1 = 1 ∧ spacing.2.2 = 1 := by
  refine ⟨?_, ?_, ?_, ?_⟩ <;>
    norm_num [spacing, rescaled_spacing, original_spacing, Prod.ext_iff]

set_option maxRecDepth 100000

/-! ## Generic shape-preservation lemmas -/

theorem shape_vmap (f : α → β) (v : Volume α) (p r c : ℕ)
    (h : ShapeIs v p r c) : ShapeIs (vmap f v) p r c := by
  obtain ⟨hp, hv⟩ := h
  refine ⟨by simpa [vmap] using hp, ?_⟩
  intro pl hpl
  simp only [vmap, List.mem_map] at hpl
  obtain ⟨pl₀, hpl₀, rfl⟩ := hpl
  obtain ⟨hr, hrow⟩ := hv pl₀ hpl₀
  refine ⟨by simpa using hr, ?_⟩
  intro row hrowmem
  simp only [List.mem_map] at hrowmem
  obtain ⟨row₀, hrow₀, rfl⟩ := hrowmem
  simpa using hrow row₀ hrow₀

theorem shape_volGen (p r c : ℕ) (g : ℕ → ℕ → ℕ → β) :
    ShapeIs (volGen p r c g) p r c := by
  refine ⟨by simp [volGen], ?_⟩
  intro pl hpl
  simp only [volGen, List.mem_map, List.mem_range] at hpl
  obtain ⟨i, _, rfl⟩ := hpl
  refine ⟨by simp, ?_⟩
  intro row hrow
  simp only [List.mem_map, List.mem_range] at hrow
  obtain ⟨j, _, rfl⟩ := hrow
  simp

theorem rowsOf_eq (v : Volume α) (p r c : ℕ) (h : ShapeIs v p r c)
    (hp : 0 < p) : rowsOf v = r := by
  obtain ⟨hl, hv⟩ := h
  have hlt : 0 < v.length := hl ▸ hp
  have hmem : v.getD 0 [] ∈ v := by
    rw [List.getD_eq_getElem v [] hlt]
    exact List.getElem_mem hlt
  exact (hv _ hmem).1

theorem colsOf_eq (v : Volume α) (p r c : ℕ) (h : ShapeIs v p r c)
    (hp : 0 < p) (hr : 0 < r) : colsOf v = c := by
  obtain ⟨hl, hv⟩ := h
  have hlt : 0 < v.length := hl ▸ hp
  have hmem : v.getD 0 [] ∈ v := by
    rw [List.getD_eq_getElem v [] hlt]
    exact List.getElem_mem hlt
  obtain ⟨hrl, hrow⟩ := hv _ hmem
  have hlt' : 0 < (v.getD 0 []).length := hrl ▸ hr
  have hmem' : (v.getD 0 []).getD 0 [] ∈ v.getD 0 [] := by
    rw [List.getD_eq_getElem _ [] hlt']
    exact List.getElem_mem hlt'
  exact hrow _ hmem'

theorem shape_volIdx (v : Volume α) (g : ℕ → ℕ → ℕ → β) (p r c : ℕ)
    (h : ShapeIs v p r c) : ShapeIs (volIdx v g) p r c := by
  rcases Nat.eq_zero_or_pos p with hp | hp
  · subst hp
    have hv : v = [] := List.length_eq_zero.mp h.1
    subst hv
    exact ⟨by simp [volIdx, volGen], by simp [volIdx, volGen, rowsOf]⟩
  rcases Nat.eq_zero_or_pos r with hr | hr
  · subst hr
    have hrows : rowsOf v = 0 := rowsOf_eq v p 0 c h hp
    refine ⟨by simp [volIdx, volGen, h.1], ?_⟩
    intro pl hpl
    simp only [volIdx, volGen, hrows, List.mem_map, List.mem_range] at hpl
    obtain ⟨i, _, rfl⟩ := hpl
    exact ⟨by simp, by simp⟩
  have hrows : rowsOf v = r := rowsOf_eq v p r c h hp
  have hcols : colsOf v = c := colsOf_eq v p r c h hp hr
  unfold volIdx
  rw [hrows, hcols, h.1]
  exact shape_volGen p r c g

theorem pshape_planeIdx (pl : Plane α) (g : ℕ → ℕ → β) (r c : ℕ)
    (h : PShape pl r c) : PShape (planeIdx pl g) r c := by
  rcases Nat.eq_zero_or_pos r with hr | hr
  · subst hr
    have : pl = [] := List.length_eq_zero.mp h.1
    subst this
    exact ⟨by simp [planeIdx], by simp [planeIdx]⟩
  have hlt : 0 < pl.length := h.1 ▸ hr
  have hmem : pl.getD 0 [] ∈ pl := by
    rw [List.getD_eq_getElem pl [] hlt]
    exact List.getElem_mem hlt
  have hc : (pl.getD 0 []).length = c := h.2 _ hmem
  refine ⟨by simp [planeIdx, h.1], ?_⟩
  intro row hrow
  simp only [planeIdx, List.mem_map, List.mem_range] at hrow
  obtain ⟨i, _, rfl⟩ := hrow
  simp only [List.length_map, List.length_range]
  simpa [List.getD] using hc

theorem shape_mapPlanes (f : Plane α → Plane β) (v : Volume α) (p r c : ℕ)
    (h : ShapeIs v p r c)
    (hf : ∀ pl ∈ v, PShape pl r c → PShape (f pl) r c) :
    ShapeIs (v.map f) p r c := by
  refine ⟨by simpa using h.1, ?_⟩
  intro pl hpl
  simp only [List.mem_map] at hpl
  obtain ⟨pl₀, hpl₀, rfl⟩ := hpl
  exact hf pl₀ hpl₀ (h.2 pl₀ hpl₀)

theorem shape_iter (step : Volume β → Volume β) (p r c : ℕ)
    (hstep : ∀ st, ShapeIs st p r c → ShapeIs (step st) p r c) :
    ∀ (n : ℕ) (st : Volume β), ShapeIs st p r c → ShapeIs (step^[n] st) p r c := by
  intro n
  induction n with
  | zero => intro st h; simpa using h
  | succ m ih =>
    intro st h
    rw [Function.iterate_succ_apply]
    exact ih _ (hstep st h)

/-- C1 (counterexample): it is false that the `try/except` around `io.imshow`
is the program's only error-handling construct — the notebook also catches
`NotImplementedError` in the `regionprops` property probe, so not every
handler in the trace catches the imshow `TypeError`. -/
theorem C1_counterexample :
    ¬ (∀ op ∈ nbOps, op.handler = none ∨ op.handler = some PyExc.typeError) := by
  decide

/-- C1 (amended): the executed notebook contains exactly two error-handling
constructs: the `try/except TypeError` around `io.imshow`, and the
`try/except NotImplementedError` around the `regionprops` property probe; no
other operation has a handler. -/
theorem C1_two_handlers :
    (nbOps.filter (fun o => o.handler.isSome)).map (fun o => (o.name, o.handler)) =
      [("io.imshow", some PyExc.typeError),
       ("regionprops property probe", some PyExc.notImplementedErr)] := by
  decide

/-- C3 (counterexample): it is false that every step of the notebook is a
single library call — the planewise Sobel loop (and the median and bilateral
loops) are program-defined loops over planes. -/
theorem C3_counterexample :
    ¬ (∀ op ∈ nbOps, op.shape = CallShape.single) := by
  decide

/-- C3 (amended): among the volume-processing steps of the pipeline (every
operation that is not a visualization or a measurement), the only
program-defined loops are exactly the edge-detection, median-filter and
bilateral-filter steps, which apply a 2D library routine plane by plane —
every other such step is a single stateless library call; semantically the
three are plane maps of the 2D routines. The notebook's remaining
program-defined loops, listed exhaustively, are in visualization (the
`display` helper's loop over planes and the marker-plot figure's loop over
axes) and in measurement (the regionprops property probe and the per-object
comprehensions). -/
theorem C3_planewise_loops :
    ((nbOps.filter (fun o =>
        o.shape == CallShape.planewiseLoop &&
          !(o.kind == StepKind.viz) && !(o.kind == StepKind.measureFeat))).map
        (fun o => o.name) =
      ["filters.sobel planewise", "filters.median planewise",
       "restoration.denoise_bilateral planewise"])
    ∧ (∀ op ∈ nbOps,
        op.kind ≠ StepKind.viz → op.kind ≠ StepKind.measureFeat →
          op.shape = CallShape.single ∨
          op.name = "filters.sobel planewise" ∨ op.name = "filters.median planewise" ∨
          op.name = "restoration.denoise_bilateral planewise")
    ∧ ((nbOps.filter (fun o => !(o.shape == CallShape.single))).map (fun o => o.name) =
      ["display(data)", "display(equalized)", "display(clipped)",
       "filters.sobel planewise", "display(sobel)", "display(gaussian)",
       "filters.median planewise", "display(median)",
       "restoration.denoise_bilateral planewise", "display(bilateral)",
       "display(binary)", "display(remove_holes)", "display(remove_objects)",
       "display(masked_labels)", "display(watershed labels)",
       "markers over distance figure", "display(interior_labels)",
       "regionprops property probe", "regionprop labels list",
       "regionprop areas list"])
    ∧ (∀ (P : LibParams) (data : Volume ℚ),
        sobelVol P data = (rescaled data).map (sobel2d P) ∧
        medianVol data = img_as_float ((rescaled_uint8 data).map median2d) ∧
        bilateralVol P data = (rescaled data).map (bilateral2d P)) :=
  ⟨by decide, by decide, by decide, fun _ _ => ⟨rfl, rfl, rfl⟩⟩

/-- C4: the executed script performs its operations in the claimed order —
the volume is loaded first; every contrast-adjustment operation precedes
every edge operation; every edge operation precedes every denoising
operation; every denoising operation precedes every thresholding operation
(and thresholding is, definitionally, applied to `denoised`); the first
morphological operation comes after thresholding starts, and the
morphological cleanup (`remove_small_holes` / `remove_small_objects`)
follows every thresholding operation (cleanup is applied to the thresholded
`binary`); connected-component labelling precedes the watershed; every
watershed operation precedes every measurement operation; the final
operation of the notebook is a visualization. -/
theorem C4_pipeline_order :
    firstIdx StepKind.load = 0
    ∧ (∀ pr ∈ nbOpsIdx, ∀ qr ∈ nbOpsIdx,
        pr.2.kind = StepKind.contrast → qr.2.kind = StepKind.edge → pr.1 < qr.1)
    ∧ (∀ pr ∈ nbOpsIdx, ∀ qr ∈ nbOpsIdx,
        pr.2.kind = StepKind.edge → qr.2.kind = StepKind.denoise → pr.1 < qr.1)
    ∧ (∀ pr ∈ nbOpsIdx, ∀ qr ∈ nbOpsIdx,
        pr.2.kind = StepKind.denoise → qr.2.kind = StepKind.threshold → pr.1 < qr.1)
    ∧ firstIdx StepKind.threshold < firstIdx StepKind.morpho
    ∧ (∀ pr ∈ nbOpsIdx, ∀ qr ∈ nbOpsIdx, pr.2.kind = StepKind.threshold →
        (qr.2.name = "morphology.remove_small_holes" ∨
         qr.2.name = "morphology.remove_small_objects") → pr.1 < qr.1)
    ∧ firstIdx StepKind.labeling < firstIdx StepKind.watershedSeg
    ∧ (∀ pr ∈ nbOpsIdx, ∀ qr ∈ nbOpsIdx,
        pr.2.kind = StepKind.watershedSeg → qr.2.kind = StepKind.measureFeat → pr.1 < qr.1)
    ∧ nbOps.getLast?.map (fun o => o.kind) = some StepKind.viz
    ∧ (∀ (P : LibParams) (data : Volume ℚ),
        liVol P data = thresholdGE (P.liT (denoised P data)) (denoised P data) ∧
        removeHolesVol P data = remove_small_holes nbrs6 (20 ^ 3) (binaryVol P data)) :=
  ⟨by decide, by decide, by decide, by decide, by decide, by decide, by decide,
   by decide, by decide, fun _ _ => ⟨rfl, rfl⟩⟩

/-- C8: in the trace of the executed notebook, the only filesystem
interaction is the single read of `../images/cells.tif` by `io.imread`; no
operation writes any file. -/
theorem C8_fs_frame :
    (nbOps.map (fun o => o.reads)).flatten = ["../images/cells.tif"]
    ∧ (nbOps.map (fun o => o.writes)).flatten = [] :=
  ⟨by decide, by decide⟩

/-- C2: when `io.imshow` is applied to the 3D volume (a 3D grayscale array,
whose last axis is not a 3- or 4-channel axis), it raises a `TypeError`; the
cell catches exactly that exception, appends its message to the printed
output, and returns normally with the volume and all other program state
unchanged. -/
theorem C2_imshow_typeerror_caught (st : NbState)
    (h3 : colsOf st.data ≠ 3) (h4 : colsOf st.data ≠ 4) : ImshowCaught st := by
  unfold ImshowCaught imshowCell imshow
  rw [if_neg (by simp [h3, h4])]
  rfl

theorem C2_witness :
    colsOf (NbState.mk [[[0]]] []).data ≠ 3 ∧ colsOf (NbState.mk [[[0]]] []).data ≠ 4 ∧
      ImshowCaught ⟨[[[0]]], []⟩ :=
  ⟨by decide, by decide,
    C2_imshow_typeerror_caught ⟨[[[0]]], []⟩ (by decide) (by decide)⟩

theorem getD_map_lt (l : List α) (f : α → β) (i : ℕ) (d : α) (e : β)
    (h : i < l.length) : (l.map f).getD i e = f (l.getD i d) := by
  rw [List.getD_eq_getElem _ _ (by simpa using h), List.getD_eq_getElem _ _ h,
    List.getElem_map]

theorem getD3_vmap (v : Volume α) (f : α → β) (d : α) (e : β) (p r c i j k : ℕ)
    (hs : ShapeIs v p r c) (hi : i < p) (hj : j < r) (hk : k < c) :
    getD3 (vmap f v) e i j k = f (getD3 v d i j k) := by
  obtain ⟨hp, hv⟩ := hs
  have hi' : i < v.length := hp ▸ hi
  have hmem : v.getD i [] ∈ v := by
    rw [List.getD_eq_getElem _ _ hi']; exact List.getElem_mem hi'
  obtain ⟨hr, hrow⟩ := hv _ hmem
  have hj' : j < (v.getD i []).length := hr ▸ hj
  have hmem2 : (v.getD i []).getD j [] ∈ v.getD i [] := by
    rw [List.getD_eq_getElem _ _ hj']; exact List.getElem_mem hj'
  have hk' : k < ((v.getD i []).getD j []).length := (hrow _ hmem2) ▸ hk
  unfold getD3 vmap
  rw [getD_map_lt v _ i [] [] hi', getD_map_lt (v.getD i []) _ j [] [] hj',
    getD_map_lt ((v.getD i []).getD j []) f k d e hk']

theorem length_flatMap_const (l : List α) (f : α → List β) (m : ℕ)
    (h : ∀ a ∈ l, (f a).length = m) : (l.flatMap f).length = l.length * m := by
  induction l with
  | nil => simp
  | cons a t ih =>
    simp only [List.flatMap_cons, List.length_append, List.length_cons]
    rw [h a (by simp), ih (fun b hb => h b (by simp [hb]))]
    ring

theorem box_length (n : ℕ) : (box n).length = (2 * n + 1) ^ 3 := by
  have hoff : (offsets n).length = 2 * n + 1 := by
    unfold offsets
    rw [List.length_map, List.length_range]
  have hmid : ∀ a ∈ offsets n,
      ((offsets n).flatMap (fun b => (offsets n).map (fun c => (a, b, c)))).length =
        (2 * n + 1) * (2 * n + 1) := by
    intro a _
    rw [length_flatMap_const _ _ (2 * n + 1)
      (fun b _ => by rw [List.length_map, hoff]), hoff]
  unfold box
  rw [length_flatMap_const _ _ _ hmid, hoff]
  ring

theorem shape_watershed (nb : List (ℤ × ℤ × ℤ)) (img : Volume ℚ)
    (markers : Volume ℕ) (mask : Volume Bool) (p r c : ℕ)
    (h : ShapeIs markers p r c) : ShapeIs (watershed nb img markers mask) p r c :=
  shape_iter (wsStep nb img mask) p r c
    (fun st hst => shape_volIdx st _ p r c hst) (voxCount markers) markers h

theorem shape_labelCC (nb : List (ℤ × ℤ × ℤ)) (v : Volume Bool) (p r c : ℕ)
    (h : ShapeIs v p r c) : ShapeIs (labelCC nb v) p r c :=
  shape_volIdx v _ p r c h

/-- C5: every volume-to-volume step of the pipeline — gamma adjustment,
equalization, intensity rescaling, gaussian/median/bilateral filtering,
thresholding, morphology (including the despeckling and the small-hole and
small-object cleanup), connected-component labelling and watershed —
preserves the invariant that its result is a three-dimensional array of the
same `(plane, row, column)` shape as the loaded volume; this holds for
every value of the abstract library scalars. -/
theorem C5_shape_invariant (P : LibParams) (data : Volume ℚ) (p r c : ℕ)
    (h : ShapeIs data p r c) : PipelineShapes P data p r c := by
  have hres : ShapeIs (rescaled data) p r c := shape_vmap _ data p r c h
  have heq : ShapeIs (equalized data) p r c := shape_volIdx data _ p r c h
  have h8 : ShapeIs (rescaled_uint8 data) p r c := shape_vmap _ _ p r c hres
  have hmed : ShapeIs ((rescaled_uint8 data).map median2d) p r c :=
    shape_mapPlanes median2d _ p r c h8
      (fun pl _ hp => pshape_planeIdx pl _ r c hp)
  have hbil : ShapeIs (bilateralVol P data) p r c :=
    shape_mapPlanes (bilateral2d P) _ p r c hres
      (fun pl _ hp => pshape_planeIdx pl _ r c hp)
  have hli : ShapeIs (liVol P data) p r c := shape_vmap _ _ p r c hbil
  have hbe : ShapeIs (binary_equalized P data) p r c := shape_vmap _ _ p r c heq
  have hdesp : ShapeIs (despeckled1 P data) p r c :=
    shape_volIdx _ _ p r c (shape_volIdx _ _ p r c
      (shape_volIdx _ _ p r c (shape_volIdx _ _ p r c hbe)))
  have hholes : ShapeIs (removeHolesVol P data) p r c :=
    shape_vmap _ _ p r c (shape_volIdx _ _ p r c (shape_vmap _ _ p r c hli))
  have hobj : ShapeIs (removeObjectsVol P data) p r c :=
    shape_volIdx _ _ p r c hholes
  have hdist : ShapeIs (distanceVol P data) p r c := shape_volIdx _ _ p r c hobj
  have hpeaks : ShapeIs (peaksVol P data) p r c := shape_volIdx _ _ p r c hdist
  have hmarkers : ShapeIs (markersVol P data) p r c :=
    shape_labelCC nbrs26 _ p r c hpeaks
  exact ⟨shape_vmap _ data p r c h, shape_vmap _ data p r c h, heq, hres,
    shape_mapPlanes (sobel2d P) _ p r c hres
      (fun pl _ hp => pshape_planeIdx pl _ r c hp),
    shape_volIdx _ _ p r c hres,
    shape_vmap _ _ p r c hmed, hbil, hli, shape_vmap _ _ p r c hbil,
    hdesp, hholes, hobj, shape_labelCC nbrs26 _ p r c hobj,
    shape_watershed nbrs6 _ _ _ p r c hmarkers⟩

/-- C5 (witness): the shape invariant evaluated on a concrete 1×1×1 volume
with concrete library scalars. -/
theorem C5_witness :
    ShapeIs [[[(0 : ℚ)]]] 1 1 1 ∧ PipelineShapes P0 [[[(0 : ℚ)]]] 1 1 1 :=
  ⟨by decide, C5_shape_invariant P0 [[[(0 : ℚ)]]] 1 1 1 (by decide)⟩

/-- C6: the watershed step is seeded from local intensity extrema — its
markers are the labelled connected components of the local maxima of the
Euclidean distance transform of the cleaned binary mask (`peak_local_max`
over a 15×15×15 footprint, i.e. radius 7, whose offset window has exactly
15³ elements, restricted to the labelled regions of the mask), and region
growing runs on the negated rescaled intensity volume restricted to that
mask. -/
theorem C6_watershed_seeding :
    (∀ (P : LibParams) (data : Volume ℚ),
      distanceVol P data = distance_transform_edt_sq (removeObjectsVol P data)
      ∧ peaksVol P data =
          peak_local_max 7 (distanceVol P data)
            (labelCC nbrs26 (removeObjectsVol P data))
      ∧ markersVol P data =
          labelCC nbrs26
            (peak_local_max 7
              (distance_transform_edt_sq (removeObjectsVol P data))
              (labelCC nbrs26 (removeObjectsVol P data)))
      ∧ wsLabels P data =
          watershed nbrs6 (vmap (fun x => -x) (rescaled data)) (markersVol P data)
            (removeObjectsVol P data))
    ∧ (box 7).length = 15 ^ 3 :=
  ⟨fun _ _ => ⟨rfl, rfl, rfl, rfl⟩, by rw [box_length]⟩

theorem sliceStepAux_length (step : ℕ) (hstep : 0 < step) :
    ∀ (fuel : ℕ) (l : List α), l.length ≤ fuel →
      (sliceStepAux step fuel l).length = (l.length + step - 1) / step := by
  intro fuel
  induction fuel with
  | zero =>
    intro l hl
    match l, hl with
    | [], _ =>
      simp only [sliceStepAux, List.length_nil]
      rw [Nat.div_eq_of_lt (by omega)]
  | succ n ih =>
    intro l hl
    match l with
    | [] =>
      simp only [sliceStepAux, List.length_nil]
      rw [Nat.div_eq_of_lt (by omega)]
    | x :: xs =>
      have hle : (xs.drop (step - 1)).length ≤ n := by
        simp only [List.length_drop]
        simp only [List.length_cons] at hl
        omega
      have hrec := ih (xs.drop (step - 1)) hle
      simp only [sliceStepAux, List.length_cons, hrec, List.length_drop]
      rcases Nat.lt_or_ge xs.length step with hc | hc
      · have h1 : xs.length - (step - 1) + step - 1 = step - 1 := by omega
        have h3 : xs.length + 1 + step - 1 = xs.length + step := by omega
        rw [h1, h3, Nat.div_eq_of_lt (by omega), Nat.add_div_right _ hstep,
          Nat.div_eq_of_lt hc]
      · have h1 : xs.length - (step - 1) + step - 1 = xs.length := by omega
        have h3 : xs.length + 1 + step - 1 = xs.length + step := by omega
        rw [h1, h3, Nat.add_div_right _ hstep]

theorem sliceStep_length (step : ℕ) (hstep : 0 < step) (l : List α) :
    (sliceStep step l).length = ceilDiv l.length step :=
  sliceStepAux_length step hstep l.length l le_rfl

theorem displayPanels_length (v : Volume ℚ) (step : ℕ) (hstep : 0 < step) :
    (displayPanels v step).length = min 30 (ceilDiv v.length step) := by
  unfold displayPanels
  rw [List.length_map, List.length_zip, List.length_range,
    sliceStep_length step hstep v]

/-- C9 (counterexample): it is false that, for every volume and every
positive step, a volume with fewer than 60 planes is shown in full — at
`step = 1` a volume of 31 planes selects 31 planes but renders only 30
panels. The 60-plane truncation boundary is specific to the default
`step = 2`. -/
theorem C9_counterexample :
    ¬ (∀ (v : Volume ℚ) (step : ℕ), 0 < step →
        ((displayPanels v step).length = min 30 (ceilDiv v.length step)
        ∧ (60 < v.length → (displayPanels v step).length < ceilDiv v.length step)
        ∧ (v.length < 60 → (displayPanels v step).length = ceilDiv v.length step)
        ∧ ∀ pn ∈ displayPanels v step, pn.vmin = volMin v ∧ pn.vmax = volMax v)) := by
  intro h
  exact absurd (h (List.replicate 31 [[0]]) 1 (by decide)) (by decide)

/-- C9 (amended): for every 3D input volume and every positive step, the
display helper renders exactly `min 30 ⌈planes/step⌉` panels and never
indexes out of bounds (`zip` truncates at the shorter of the 30 subplot axes
and the selected planes); at the default `step = 2` volumes with more than
60 planes are silently truncated and volumes with at most 60 planes are
shown in full; all panels share the volume's global minimum and maximum as
display bounds. -/
theorem C9_display (v : Volume ℚ) (step : ℕ) (hstep : 0 < step) :
    DisplaySpec v step := by
  have hlen := displayPanels_length v step hstep
  have hlen2 := displayPanels_length v 2 (by omega)
  refine ⟨hlen, ?_, ?_, ?_⟩
  · intro h60
    unfold ceilDiv at hlen2 ⊢
    omega
  · intro h60
    unfold ceilDiv at hlen2 ⊢
    omega
  · intro pn hpn
    unfold displayPanels at hpn
    simp only [List.mem_map] at hpn
    obtain ⟨ai, _, rfl⟩ := hpn
    exact ⟨rfl, rfl⟩

/-- C9 (witness): the amended display property at a concrete 32-plane
volume and the default step 2. -/
theorem C9_witness :
    (0 : ℕ) < 2 ∧ DisplaySpec (List.replicate 32 [[0]]) 2 :=
  ⟨by decide, C9_display (List.replicate 32 [[0]]) 2 (by decide)⟩

/-- C10: in every thresholding step of the notebook the comparison is `>=`
(`thresholdGE`, as the three binarization sites show definitionally), so a
voxel whose intensity exactly equals the computed threshold value is
classified as foreground (`true`), not background. -/
theorem C10_threshold_ge (v : Volume ℚ) (t : ℚ) (p r c i j k : ℕ)
    (hs : ShapeIs v p r c) (hi : i < p) (hj : j < r) (hk : k < c)
    (ht : getD3 v 0 i j k = t) :
    getD3 (thresholdGE t v) false i j k = true ∧ ThresholdSitesGE := by
  constructor
  · unfold thresholdGE
    rw [getD3_vmap v _ 0 false p r c i j k hs hi hj hk, ht]
    simp
  · exact fun _ _ => ⟨rfl, rfl, rfl⟩

theorem C10_witness :
    ShapeIs [[[(5 : ℚ)]]] 1 1 1 ∧ (0 : ℕ) < 1 ∧ getD3 [[[(5 : ℚ)]]] 0 0 0 0 = 5 ∧
      (getD3 (thresholdGE 5 [[[(5 : ℚ)]]]) false 0 0 0 = true ∧ ThresholdSitesGE) :=
  ⟨by decide, by decide, by decide,
    C10_threshold_ge [[[(5 : ℚ)]]] 5 1 1 1 0 0 0 (by decide) (by decide) (by decide)
      (by decide) (by decide)⟩

end Cells3D
